import Mathlib

/-!
# Verification of the Device Attestation & Secret Provisioning core

A shallow embedding of the security core of the Populist backend
(`index.js`): the storage-key sanitizer, the authenticator-data byte
layout, the App Attest assertion validator, registration, the per-device
secret deriver (its HKDF call), device revocation, and the Didit webhook
trust filter with its idempotency ledger.

Bytes are modelled as `List Nat`; machine reads that can go out of
bounds (Node's `readUInt16BE`/`readUInt32BE` throw a `RangeError`, which
the surrounding `try`/`catch` converts into a deny) are modelled as
`Option`.  External cryptographic and codec primitives (SHA-256,
HMAC-SHA256, CBOR decoding, ECDSA verification, base64 decoding) live
outside the repository; they are passed in as an explicit `Oracle`
record of functions, so every theorem about control flow holds for
every possible behaviour of those primitives.
-/

namespace Populist

/-- From `getSafeFirestoreId` (index.js): `if (!id) return id;
return id.replace(/\//g, "_").replace(/\+/g, "-");`.  The two regex
replaces are global single-character substitutions, modelled as maps
over the character list. -/
def getSafeFirestoreId (id : String) : String :=
  if id = "" then id
  else String.mk (((id.data.map fun c => if c = '/' then '_' else c).map
      fun c => if c = '+' then '-' else c))

/-- Node `buf.readUInt16BE(off)`: big-endian 16-bit read; `none` models
the `RangeError` thrown when fewer than 2 bytes remain at `off`. -/
def readUInt16BE (b : List Nat) (off : Nat) : Option Nat :=
  match b.drop off with
  | b1 :: b0 :: _ => some (b1 * 256 + b0)
  | _ => none

/-- Node `buf.readUInt32BE(off)`: big-endian 32-bit read; `none` models
the `RangeError` thrown when fewer than 4 bytes remain at `off`. -/
def readUInt32BE (b : List Nat) (off : Nat) : Option Nat :=
  match b.drop off with
  | b3 :: b2 :: b1 :: b0 :: _ =>
      some (((b3 * 256 + b2) * 256 + b1) * 256 + b0)
  | _ => none

/-- `authData.subarray(0, 32)` in `verifyAppIdHash`: the RP-ID hash is
the first 32 bytes of the authenticator data. -/
def relyingPartyHash (authData : List Nat) : List Nat :=
  authData.take 32

/-- `authenticatorData.readUInt32BE(33)` in `validateAppAttest`: the
signing counter. -/
def authDataCounter (authData : List Nat) : Option Nat :=
  readUInt32BE authData 33

/-- `storedAuthData.readUInt16BE(53)` in `validateAppAttest`: the
credential-id length field. -/
def credIdLen (authData : List Nat) : Option Nat :=
  readUInt16BE authData 53

/-- `storedAuthData.subarray(55 + credIdLen)` in `validateAppAttest`:
the embedded COSE public-key region. -/
def publicKeyRegion (authData : List Nat) (len : Nat) : List Nat :=
  authData.drop (55 + len)

/-- The arguments of the `crypto.hkdfSync` call in
`encryptAPIKeyPerDevice`.  `salt` and `info` are UTF-8 strings in the
source (`Buffer.from(deviceId, "utf8")`, `Buffer.from(service +
"-api-key-encryption", "utf8")`); UTF-8 encoding is injective, so they
are kept as `String`. -/
structure HkdfCall where
  hashAlg : String
  ikm : List Nat
  salt : String
  info : String
  outLen : Nat
deriving DecidableEq

/-- From `encryptAPIKeyPerDevice` (index.js): `crypto.hkdfSync("sha256",
masterKey, Buffer.from(deviceId, "utf8"),
Buffer.from(service + "-api-key-encryption", "utf8"), 32)`. -/
def deviceKeyCall (masterKey : List Nat) (deviceId service : String) :
    HkdfCall :=
  { hashAlg := "sha256"
    ikm := masterKey
    salt := deviceId
    info := service ++ "-api-key-encryption"
    outLen := 32 }

/-- A sealed per-device secret as persisted by the secure-key endpoint:
`{encryptedKey, iv, authTag}` (base64 strings in the source). -/
structure SealedBlob where
  encryptedKey : String := ""
  iv : String := ""
  authTag : String := ""
deriving DecidableEq

/-- One document of the Firestore `devices` collection.  Fields the
source reads or writes; audit fields that no decision depends on
(`ipAddress`, `registeredAt` timestamps as server values) are modelled
as plain numbers or omitted.  A field absent from a document behaves
like its JS-falsy default (`undefined`), which these defaults encode. -/
structure DeviceRec where
  keyId : String := ""
  deviceId : String := ""
  publicKey : List Nat := []  -- stored authData; kept decoded (source stores base64)
  counter : Nat := 0
  revoked : Bool := false
  service : Option String := none
  cachedSecret : Option SealedBlob := none
  platform : Option String := none
  lastUsed : Nat := 0
  requestCount : Nat := 0
  registeredAt : Nat := 0
  revokedAt : Nat := 0
  bundleId : String := ""
  revokedReason : Option String := none
  revokedBy : Option String := none
deriving DecidableEq

/-- The `devices` collection: a key-value store with per-document
get/set.  Modelled as a shadowing association list (the most recent
write for a key is found first). -/
abbrev Registry := List (String × DeviceRec)

/-- Firestore `doc(k).get()`. -/
def dbGet (db : Registry) (k : String) : Option DeviceRec :=
  (db.find? (fun kv => kv.1 == k)).map (fun kv => kv.2)

/-- Firestore `doc(k).set(r)` / full-document replacement: later writes
shadow earlier ones. -/
def dbSet (db : Registry) (k : String) (r : DeviceRec) : Registry :=
  (k, r) :: db

/-- Firestore `doc(k).update(f)`: partial update of an existing
document.  (On a missing document Firestore throws; the source only
updates documents it has just fetched.) -/
def dbUpdate (db : Registry) (k : String) (f : DeviceRec → DeviceRec) :
    Registry :=
  match dbGet db k with
  | some r => dbSet db k (f r)
  | none => db

/-- `deviceDoc.exists && deviceDoc.data().revoked` (JS truthiness: a
missing document or missing field is falsy). -/
def docRevoked (d : Option DeviceRec) : Bool :=
  match d with
  | some r => r.revoked
  | none => false

/-- UTF-8 text as code points.  The source passes JS strings to hash /
HMAC / HKDF primitives as UTF-8 buffers; the encoding is injective, so
code points suffice for a model that treats those primitives as
oracles. -/
def utf8 (s : String) : List Nat := s.data.map Char.toNat

/-- The external primitives the core calls (Node `crypto`, the `cbor`
library, Firebase token verification).  They are outside the repository,
so the embedding quantifies over their behaviour: each theorem about
control flow holds for every oracle. -/
structure Oracle where
  /-- `crypto.createHash("sha256")...digest()`. -/
  sha256 : List Nat → List Nat
  /-- `crypto.createHmac("sha256", secret).update(msg).digest("hex")`. -/
  hmacHex : String → String → String
  /-- `Buffer.from(s, "base64")` (lenient, never throws). -/
  b64decode : String → List Nat
  /-- `cbor.decodeFirstSync` on an assertion, then the
  `authenticatorData` / `signature` fields normalised to buffers;
  `none` models a decode throw or a missing field (both end in the
  surrounding catch). -/
  decodeAssertion : List Nat → Option (List Nat × List Nat)
  /-- `cbor.decodeFirstSync` on an attestation: `none` = decode throw;
  `some none` = decoded object without an `authData` field. -/
  decodeAttestationAuthData : List Nat → Option (Option (List Nat))
  /-- `cbor.decodeFirstSync` on the COSE key region, then the `-2`/`-3`
  coordinate lookups; `none` models any throw. -/
  decodeCose : List Nat → Option (List Nat × List Nat)
  /-- `crypto.verify(null, digest, p256Key(x, y), signature)` for the
  JWK-reconstructed P-256 key; the enclosing try/catch maps key
  construction errors to `false`, so a total `Bool` is faithful. -/
  ecdsaVerify : (x y digest sig : List Nat) → Bool
  /-- `admin.auth().verifyIdToken`: `some email` on success. -/
  verifyIdToken : String → Option String
  /-- `validateAndroidAttestation`'s JWT payload decode
  (`JSON.parse(Buffer.from(tok.split(".")[1], "base64"))`);
  `none` models any throw. -/
  decodeJwt : String → Option (Option String × Option (Option String))
  /-- `encryptAPIKeyPerDevice`'s AES-256-GCM sealing of the payload
  under the HKDF-derived device key (arguments: apiKey, deviceId,
  service); the random IV is folded into the oracle. -/
  encryptBlob : String → String → String → SealedBlob

/-- The environment variables the core reads. -/
structure Env where
  appleTeamId : Option String := none
  appleBundleId : Option String := none
  androidPackageName : Option String := none
  diditSecret : Option String := none
  /-- `process.env[name]` for the service-registry lookups. -/
  envVar : String → Option String := fun _ => none

/-- `process.env.APPLE_BUNDLE_ID || "com.sayists.Populist"` (an empty
string is falsy in JS). -/
def bundleIdOrDefault (env : Env) : String :=
  match env.appleBundleId with
  | some b => if b = "" then "com.sayists.Populist" else b
  | none => "com.sayists.Populist"

/-- From `verifyAppIdHash` (index.js): compares the first 32 bytes of
the authenticator data with `SHA256(teamId + "." + bundleId)`.  If
`APPLE_TEAM_ID` is unset (or empty, hence falsy) the source warns and
returns `true` (check skipped). -/
def verifyAppIdHash (env : Env) (O : Oracle) (authData : List Nat) :
    Bool :=
  match env.appleTeamId with
  | none => true
  | some teamId =>
    if teamId = "" then true
    else
      let appId := teamId ++ "." ++ bundleIdOrDefault env
      let expectedHash := O.sha256 (utf8 appId)
      relyingPartyHash authData == expectedHash

/-- From `validateAppAttest` (index.js).  Returns the boolean the
source resolves with, paired with the registry after any side effect.
Every caught exception (CBOR decode, missing field, out-of-range buffer
read, key construction) resolves `false` with the registry untouched;
the counter/lastUsed update happens only on full success. -/
def validateAppAttest (env : Env) (O : Oracle) (db : Registry)
    (assertionBase64 keyId challenge : String) (now : Nat) :
    Bool × Registry :=
  let safeKeyId := getSafeFirestoreId keyId
  match dbGet db safeKeyId with
  | none => (false, db)
  | some rec =>
    match O.decodeAssertion (O.b64decode assertionBase64) with
    | none => (false, db)
    | some (authenticatorData, sig) =>
      let clientDataHash := O.sha256 (O.b64decode challenge.trim)
      if verifyAppIdHash env O authenticatorData then
        match credIdLen rec.publicKey with
        | none => (false, db)
        | some len =>
          match O.decodeCose (publicKeyRegion rec.publicKey len) with
          | none => (false, db)
          | some (x, y) =>
            let signedData := authenticatorData ++ clientDataHash
            let digest := O.sha256 signedData
            if O.ecdsaVerify x y digest sig then
              match authDataCounter authenticatorData with
              | none => (false, db)
              | some ctr =>
                if ctr ≤ rec.counter then (false, db)
                else
                  (true, dbSet db safeKeyId
                    { rec with counter := ctr, lastUsed := now })
            else (false, db)
      else (false, db)

/-- Response of `POST /api/attest/register`. -/
inductive RegisterResult where
  | ok200
  | bad400
  | forbidden403
  | err500
deriving DecidableEq

/-- The `set(..., { merge: true })` write of registration: the fields
written at registration replace their previous values, every other
field of an existing document is kept. -/
def mergeRegister (prev : Option DeviceRec) (keyId : String)
    (authData : List Nat) (now : Nat) (bundleId : String) : DeviceRec :=
  let base := prev.getD {}
  { base with
    keyId := keyId
    publicKey := authData
    counter := 0
    registeredAt := now
    bundleId := bundleId }

/-- From `app.post("/api/attest/register")` (index.js).  A thrown CBOR
decode error or missing `authData` field lands in the handler's catch,
which responds 500 ("Registration failed"); an RP-ID hash mismatch
responds 403.  An empty string models a missing/falsy body field. -/
def registerDevice (env : Env) (O : Oracle) (db : Registry)
    (keyId attestation challenge : String) (now : Nat) :
    RegisterResult × Registry :=
  if keyId = "" ∨ attestation = "" ∨ challenge = "" then (.bad400, db)
  else
    let safeKeyId := getSafeFirestoreId keyId
    match O.decodeAttestationAuthData (O.b64decode attestation) with
    | none => (.err500, db)
    | some none => (.err500, db)
    | some (some authData) =>
      if verifyAppIdHash env O authData then
        (.ok200, dbSet db safeKeyId
          (mergeRegister (dbGet db safeKeyId) keyId authData now
            (bundleIdOrDefault env)))
      else (.forbidden403, db)

/-- From `validateAndroidAttestation` (index.js): decode the JWT
payload, compare `appPackageName` against `ANDROID_PACKAGE_NAME` with
`!==` (note: `undefined !== undefined` is false, so both missing
compare equal), then require `appIntegrity.verdict === "PLAY_RECOGNIZED"`.
The decoded payload is `(appPackageName?, appIntegrity? (verdict?))`. -/
def validateAndroidAttestation (env : Env) (O : Oracle) (tok : String) :
    Bool :=
  match O.decodeJwt tok with
  | none => false
  | some (pkg, integrity) =>
    if pkg ≠ env.androidPackageName then false
    else
      match integrity with
      | none => false
      | some verdict => verdict == some "PLAY_RECOGNIZED"

/-- `SERVICE_REGISTRY` of the secure-key endpoint. -/
def serviceRegistry (service : String) : Option String :=
  if service = "congress" then some "CONGRESS_API_KEY" else none

/-- `const targetApiKey = envVarName ? process.env[envVarName] : null`
(an empty env var is falsy and treated as unconfigured). -/
def targetApiKey (env : Env) (service : String) : Option String :=
  match serviceRegistry service with
  | some varName =>
    match env.envVar varName with
    | some v => if v = "" then none else some v
    | none => none
  | none => none

/-- Response of `POST /api/secure-key`. -/
inductive SKResult where
  | bad400
  | revoked403
  | attest403
  | configErr500
  | okCached (blob : Option SealedBlob)
  | okFresh (blob : SealedBlob)
deriving DecidableEq

/-- The tail of the secure-key handler after attestation validation
succeeded: cached-key fast path (read from the pre-validation snapshot
`deviceDoc`, update `lastSeen`/`requestCount` on the live document) or
first-time sealing followed by the `set(..., { merge: true })`. -/
def issueSecret (env : Env) (O : Oracle) (db : Registry)
    (deviceDoc : Option DeviceRec)
    (safeDeviceId deviceId platform service : String) (now : Nat) :
    SKResult × Registry :=
  match targetApiKey env service with
  | none => (.configErr500, db)
  | some apiKey =>
    match deviceDoc with
    | some rec =>
      if rec.revoked = false ∧ rec.service = some service then
        (.okCached rec.cachedSecret,
          dbUpdate db safeDeviceId fun r =>
            { r with lastUsed := now, requestCount := r.requestCount + 1 })
      else
        let blob := O.encryptBlob apiKey deviceId service
        let prev := (dbGet db safeDeviceId).getD {}
        (.okFresh blob, dbSet db safeDeviceId
          { prev with
            deviceId := deviceId
            service := some service
            platform := some platform
            cachedSecret := some blob
            lastUsed := now
            revoked := false
            requestCount := 1 })
    | none =>
      let blob := O.encryptBlob apiKey deviceId service
      let prev := (dbGet db safeDeviceId).getD {}
      (.okFresh blob, dbSet db safeDeviceId
        { prev with
          deviceId := deviceId
          service := some service
          platform := some platform
          cachedSecret := some blob
          lastUsed := now
          revoked := false
          requestCount := 1 })

/-- From `app.post("/api/secure-key")` (index.js): required-field
check, revocation check on the fetched document *before* any
validation, then platform-specific attestation validation (which, for
iOS, may itself advance the stored counter), then the cached / fresh
secret paths.  An empty string models a missing/falsy body field. -/
def secureKey (env : Env) (O : Oracle) (db : Registry)
    (platform deviceId assertion challenge service : String)
    (now : Nat) : SKResult × Registry :=
  if platform = "" ∨ deviceId = "" ∨ assertion = "" then (.bad400, db)
  else
    let safeDeviceId := getSafeFirestoreId deviceId
    let deviceDoc := dbGet db safeDeviceId
    if docRevoked deviceDoc then (.revoked403, db)
    else if platform = "ios" then
      if challenge = "" then (.bad400, db)
      else
        let r := validateAppAttest env O db assertion deviceId challenge now
        if r.1 then
          issueSecret env O r.2 deviceDoc safeDeviceId deviceId platform
            service now
        else (.attest403, r.2)
    else if platform = "android" then
      if validateAndroidAttestation env O assertion then
        issueSecret env O db deviceDoc safeDeviceId deviceId platform
          service now
      else (.attest403, db)
    else (.bad400, db)

/-- Response of `POST /admin/revoke-device`. -/
inductive RevokeResult where
  | unauth401
  | forbidden403
  | bad400
  | notFound404
  | ok200
deriving DecidableEq

/-- The allow-listed admin identity, hardcoded in the source. -/
def adminEmail : String := "nmcarducci@gmail.com"

/-- From `app.post("/admin/revoke-device")` (index.js). -/
def revokeDevice (O : Oracle) (db : Registry)
    (deviceId reason idToken : String) (now : Nat) :
    RevokeResult × Registry :=
  if idToken = "" then (.unauth401, db)
  else
    match O.verifyIdToken idToken with
    | none => (.forbidden403, db)
    | some email =>
      if email ≠ adminEmail then (.forbidden403, db)
      else if deviceId = "" then (.bad400, db)
      else
        let safeDeviceId := getSafeFirestoreId deviceId
        match dbGet db safeDeviceId with
        | none => (.notFound404, db)
        | some rec =>
          (.ok200, dbSet db safeDeviceId
            { rec with
              revoked := true
              revokedAt := now
              revokedReason :=
                some (if reason = "" then "Admin revocation" else reason)
              revokedBy := some email })

/-- The operations of the core that touch the device registry. -/
inductive Op where
  | register (keyId attestation challenge : String) (now : Nat)
  | assertOp (assertion keyId challenge : String) (now : Nat)
  | secure (platform deviceId assertion challenge service : String)
      (now : Nat)
  | revoke (deviceId reason idToken : String) (now : Nat)

/-- Whether an operation is a registration. -/
def Op.isRegister : Op → Bool
  | .register _ _ _ _ => true
  | _ => false

/-- The registry after one operation. -/
def step (env : Env) (O : Oracle) (db : Registry) : Op → Registry
  | .register k a c n => (registerDevice env O db k a c n).2
  | .assertOp a k c n => (validateAppAttest env O db a k c n).2
  | .secure p d a c s n => (secureKey env O db p d a c s n).2
  | .revoke d r t n => (revokeDevice O db d r t n).2

/-- The registry after a sequence of operations. -/
def run (env : Env) (O : Oracle) (db : Registry) (ops : List Op) :
    Registry :=
  ops.foldl (step env O) db

/-! ## The Didit webhook trust filter

`express.json()` parses the request body before the handler runs, so
`req.body` is a parsed JSON value and the raw wire bytes are gone.  The
JSON values exchanged here are modelled by the fragment the webhook
payloads use: objects with string keys whose values are strings
(without escape sequences), non-negative integers, or nested objects. -/

/-- The modelled JSON fragment. -/
inductive Json where
  | num (n : Nat)
  | str (s : String)
  | obj (fields : List (String × Json))

mutual

/-- `JSON.stringify` on the modelled fragment: compact rendering, no
whitespace (the strings of this fragment need no escaping). -/
def stringify : Json → String
  | .num n => toString n
  | .str s => "\"" ++ s ++ "\""
  | .obj fs => "\x7b" ++ stringifyMembers fs ++ "\x7d"

/-- Comma-separated `"key":value` members. -/
def stringifyMembers : List (String × Json) → String
  | [] => ""
  | [(k, v)] => "\"" ++ k ++ "\":" ++ stringify v
  | (k, v) :: rest =>
      "\"" ++ k ++ "\":" ++ stringify v ++ "," ++ stringifyMembers rest

end

/-- JSON insignificant whitespace. -/
def isWsChar (c : Char) : Bool :=
  c = ' ' ∨ c = '\n' ∨ c = '\t' ∨ c = '\r'

/-- Skip insignificant whitespace. -/
def skipWs : List Char → List Char
  | [] => []
  | c :: cs => if isWsChar c then skipWs cs else c :: cs

/-- Longest prefix of decimal digits. -/
def takeDigits : List Char → List Char × List Char
  | [] => ([], [])
  | c :: cs =>
    if c.isDigit then
      let p := takeDigits cs
      (c :: p.1, p.2)
    else ([], c :: cs)

/-- Decimal digits to a number. -/
def digitsToNat (ds : List Char) : Nat :=
  ds.foldl (fun n c => n * 10 + (c.toNat - 48)) 0

/-- String-literal body up to the closing quote (escape sequences are
outside the modelled fragment). -/
def strBody : List Char → Option (List Char × List Char)
  | [] => none
  | c :: cs =>
    if c = '"' then some ([], cs)
    else if c = '\\' then none
    else (strBody cs).map (fun p => (c :: p.1, p.2))

/-- A quoted string literal. -/
def parseStringLit (cs : List Char) : Option (String × List Char) :=
  match cs with
  | '"' :: rest => (strBody rest).map (fun p => (String.mk p.1, p.2))
  | _ => none

mutual

/-- `JSON.parse` on the modelled fragment (fuelled recursion; the fuel
is sized from the input so it never runs out on inputs the fragment
covers). -/
def parseValue : Nat → List Char → Option (Json × List Char)
  | 0, _ => none
  | Nat.succ fuel, cs =>
    match skipWs cs with
    | '\x7b' :: rest =>
      (match skipWs rest with
       | '\x7d' :: rest2 => some (.obj [], rest2)
       | rest2 =>
         match parseMembers fuel rest2 with
         | some (fs, rest3) =>
           (match skipWs rest3 with
            | '\x7d' :: rest4 => some (.obj fs, rest4)
            | _ => none)
         | none => none)
    | '"' :: rest =>
      (strBody rest).map (fun p => (.str (String.mk p.1), p.2))
    | c :: rest =>
      if c.isDigit then
        let p := takeDigits (c :: rest)
        some (.num (digitsToNat p.1), p.2)
      else none
    | [] => none

/-- Object members: `"key" : value (, members)?`. -/
def parseMembers :
    Nat → List Char → Option (List (String × Json) × List Char)
  | 0, _ => none
  | Nat.succ fuel, cs =>
    match parseStringLit (skipWs cs) with
    | none => none
    | some (key, rest) =>
      match skipWs rest with
      | ':' :: rest2 =>
        (match parseValue fuel rest2 with
         | none => none
         | some (v, rest3) =>
           match skipWs rest3 with
           | ',' :: rest4 =>
             (parseMembers fuel rest4).map
               (fun p => ((key, v) :: p.1, p.2))
           | rest4 => some ([(key, v)], rest4))
      | _ => none

end

/-- `JSON.parse` of a whole document; `none` models a parse throw. -/
def jsonParse (s : String) : Option Json :=
  match parseValue (s.length + 1) s.data with
  | some (v, rest) => if skipWs rest = [] then some v else none
  | none => none

/-- Property lookup `body.field` (`none` = `undefined`). -/
def Json.getField : Json → String → Option Json
  | .obj fs, k => (fs.find? (fun kv => kv.1 == k)).map (fun kv => kv.2)
  | _, _ => none

/-- JS truthiness of a JSON value. -/
def Json.truthy : Json → Bool
  | .num n => n ≠ 0
  | .str s => s ≠ ""
  | .obj _ => true

/-- JS string coercion as used in template literals and
`JSON.parse`'s argument coercion. -/
def Json.jsToString : Json → String
  | .num n => toString n
  | .str s => s
  | .obj _ => "[object Object]"

/-- `body.field` is present and truthy. -/
def truthyField (body : Json) (k : String) : Bool :=
  match body.getField k with
  | some v => v.truthy
  | none => false

/-- JS strict equality `body.field === v` for a string constant. -/
def isStrField (body : Json) (k v : String) : Bool :=
  match body.getField k with
  | some (.str s) => s = v
  | _ => false

/-- JS `parseInt`: optional sign after whitespace, then leading digits;
`none` = `NaN`. -/
def parseIntJS (s : String) : Option Int :=
  match skipWs s.data with
  | '-' :: rest =>
    (match takeDigits rest with
     | ([], _) => none
     | (ds, _) => some (-(digitsToNat ds : Int)))
  | '+' :: rest =>
    (match takeDigits rest with
     | ([], _) => none
     | (ds, _) => some (digitsToNat ds : Int))
  | cs =>
    (match takeDigits cs with
     | ([], _) => none
     | (ds, _) => some (digitsToNat ds : Int))

/-- The freshness check: `Math.abs(now - parseInt(timestamp)) > 300`
with `now = Math.floor(Date.now() / 1000)`.  A non-numeric timestamp
makes `parseInt` return `NaN`, every comparison with which is false, so
the request is *not* considered stale. -/
def isStale (nowMs : Nat) (ts : String) : Bool :=
  match parseIntJS ts with
  | some t => ((nowMs : Int) / 1000 - t).natAbs > 300
  | none => false

/-- A present, non-empty header (JS truthiness of the header string). -/
def headerTruthy : Option String → Bool
  | some s => s ≠ ""
  | none => false

/-- The message the handler feeds to HMAC-SHA256:
`JSON.stringify(req.body)` (line 871) — a re-serialisation of the
already-parsed body, not the raw wire bytes. -/
def diditHmacMessage (body : Json) : String := stringify body

/-- Didit status → internal status (`statusMap`, default `unknown`). -/
def diditStatusMap (status : String) : String :=
  if status = "Approved" then "verified"
  else if status = "Declined" then "rejected"
  else if status = "In Review" then "under_review"
  else if status = "Abandoned" then "abandoned"
  else "unknown"

/-- Observable state of the webhook subsystem: the idempotency ledger
(`processed_webhook_events` document ids, in write order) and the
applied business updates, abstracted to an append-only log of
`(userId, sessionId, mappedStatus)`.  The detailed Firestore fields
written by `updateUserVerificationStatusFromDidit` are abstracted away;
the claims here concern only whether and how often the update is
applied. -/
structure WebhookState where
  ledger : List String := []
  updates : List (String × String × String) := []
deriving DecidableEq

/-- Response of `POST /webhook/didit`. -/
inductive WResp where
  | ok200
  | bad400
  | unauth401
  | err500
deriving DecidableEq

/-- From `updateUserVerificationStatusFromDidit` (index.js), in
outline: parse `vendor_data` (defaulting falsy values to `"\x7b\x7d"`),
require a truthy `userId`, then apply the business update.  `none`
models the rethrown error (caught by the webhook handler as a 500). -/
def updateUserFromDidit (st : WebhookState) (sessionId : String)
    (status : Option Json) (vendorData : Option Json) :
    Option WebhookState :=
  let vdStr :=
    match vendorData with
    | some v => if v.truthy then v.jsToString else "\x7b\x7d"
    | none => "\x7b\x7d"
  match jsonParse vdStr with
  | none => none
  | some vd =>
    match vd.getField "userId" with
    | none => none
    | some u =>
      if u.truthy then
        let mapped :=
          match status with
          | some (.str s) => diditStatusMap s
          | _ => "unknown"
        some { st with
          updates := st.updates ++ [(u.jsToString, sessionId, mapped)] }
      else none

/-- `eventId = didit_${session_id}_${webhook_type}_${eventTimestamp ||
Date.now()}`: the vendor timestamp when truthy, the server clock
otherwise. -/
def eventIdOf (body : Json) (nowMs : Nat) : String :=
  let evTs :=
    match body.getField "timestamp" with
    | some v => if v.truthy then v.jsToString else toString nowMs
    | none => toString nowMs
  "didit_" ++ (body.getField "session_id").elim "" Json.jsToString
    ++ "_" ++ (body.getField "webhook_type").elim "" Json.jsToString
    ++ "_" ++ evTs

/-- The early-return checks of the Didit webhook handler, in source
order: required headers, configured secret, HMAC comparison (Node's
`crypto.timingSafeEqual` throws on buffers of different length — the
handler's catch turns that into a 500), timestamp freshness, payload
required fields.  `some r` = rejected with response `r` before the
idempotency ledger is consulted; `none` = proceed. -/
def diditGate (env : Env) (O : Oracle) (nowMs : Nat)
    (sig ts : Option String) (body : Json) : Option WResp :=
  if headerTruthy sig = false ∨ headerTruthy ts = false then
    some .unauth401
  else
    match env.diditSecret with
    | none => some .err500
    | some secret =>
      let expected := O.hmacHex secret (diditHmacMessage body)
      if (sig.getD "").length ≠ expected.length then some .err500
      else if sig.getD "" ≠ expected then some .unauth401
      else if isStale nowMs (ts.getD "") then some .unauth401
      else if truthyField body "webhook_type" = false ∨
          truthyField body "session_id" = false ∨
          truthyField body "status" = false then some .bad400
      else none

/-- Dispatch on `webhook_type`: both `status.updated` and
`data.updated` apply the business update; unknown types are logged and
fall through to the ledger write. -/
def diditProcess (st : WebhookState) (body : Json) :
    Option WebhookState :=
  let sid := (body.getField "session_id").elim "" Json.jsToString
  if isStrField body "webhook_type" "status.updated" ∨
      isStrField body "webhook_type" "data.updated" then
    updateUserFromDidit st sid (body.getField "status")
      (body.getField "vendor_data")
  else some st

/-- From `app.post("/webhook/didit")` (index.js): the gate, then the
idempotency-ledger short circuit, then processing and the ledger
write.  A throw inside processing reaches the handler's catch (500)
before `markEventProcessed` runs. -/
def diditWebhook (env : Env) (O : Oracle) (nowMs : Nat)
    (st : WebhookState) (sig ts : Option String) (body : Json) :
    WResp × WebhookState :=
  match diditGate env O nowMs sig ts body with
  | some r => (r, st)
  | none =>
    let eventId := eventIdOf body nowMs
    if eventId ∈ st.ledger then (.ok200, st)
    else
      match diditProcess st body with
      | none => (.err500, st)
      | some st2 => (.ok200, { st2 with ledger := st2.ledger ++ [eventId] })

/-! ## Derived observations and concrete fixtures -/

/-- The counter field of the stored record for storage key `kk` (0 when
the document or field is absent, matching `undefined` bookkeeping). -/
def storedCounter (db : Registry) (kk : String) : Nat :=
  ((dbGet db kk).map DeviceRec.counter).getD 0

/-- The vendor byte layout of an authenticator-data record:
`rpIdHash(32) || flags(1) || counter(4, BE) || aaguid(16) ||
credIdLen(2, BE) || credId(credIdLen) || publicKeyCOSE(variable)`. -/
def authDataAssemble (rp : List Nat) (flags : Nat)
    (c3 c2 c1 c0 : Nat) (aaguid : List Nat) (l1 l0 : Nat)
    (credId cose : List Nat) : List Nat :=
  rp ++ [flags] ++ [c3, c2, c1, c0] ++ aaguid ++ [l1, l0] ++ credId ++ cose

/-- Authenticator-data test vector: 60 bytes, counter 5 at offset 33,
zero credential-id length at offset 53. -/
def adFix : List Nat :=
  List.replicate 33 0 ++ [0, 0, 0, 5] ++ List.replicate 23 0

/-- A concrete oracle for executable scenarios: every decode succeeds
with the `adFix` record, every signature verifies, the admin token
checks out. -/
def oracleFix : Oracle where
  sha256 := fun _ => []
  hmacHex := fun _ _ => "aa"
  b64decode := fun _ => []
  decodeAssertion := fun _ => some (adFix, [1])
  decodeAttestationAuthData := fun _ => some (some adFix)
  decodeCose := fun _ => some ([2], [3])
  ecdsaVerify := fun _ _ _ _ => true
  verifyIdToken := fun _ => some adminEmail
  decodeJwt := fun _ => none
  encryptBlob := fun _ _ _ => {}

/-- An oracle whose CBOR decodes throw (malformed base64/CBOR blobs). -/
def oracleBad : Oracle :=
  { oracleFix with
    decodeAssertion := fun _ => none
    decodeAttestationAuthData := fun _ => none }

/-- Environment with no `APPLE_TEAM_ID` (the source then skips the
strict App-ID check) and nothing else configured. -/
def envFix : Env := {}

/-- A registered device record holding `adFix` with stored counter 5. -/
def recFix : DeviceRec := { keyId := "k", publicKey := adFix, counter := 5 }

/-- A one-device registry. -/
def dbFix : Registry := [("k", recFix)]

/-- Webhook environment: a configured Didit webhook secret. -/
def envW : Env := { diditSecret := some "sec" }

/-- Webhook oracle whose HMAC digest is the two-character string
`"00"`. -/
def oracleW : Oracle := { oracleFix with hmacHex := fun _ _ => "00" }

/-- Webhook oracle whose HMAC digest is the one-character string
`"h"`. -/
def oracleW2 : Oracle := { oracleFix with hmacHex := fun _ _ => "h" }

/-- A Didit payload with no `timestamp` field. -/
def bodyNoTs : Json :=
  .obj [("webhook_type", .str "status.updated"),
        ("session_id", .str "s1"),
        ("status", .str "Approved"),
        ("vendor_data", .str "\x7b\"userId\":\"u1\"\x7d")]

/-- The same Didit payload carrying vendor timestamp 42. -/
def bodyTs : Json :=
  .obj [("webhook_type", .str "status.updated"),
        ("session_id", .str "s1"),
        ("status", .str "Approved"),
        ("vendor_data", .str "\x7b\"userId\":\"u1\"\x7d"),
        ("timestamp", .num 42)]

/-! ## Theorems -/

/-- Reading back the key just written. -/
theorem dbGet_dbSet_self (db : Registry) (k : String) (r : DeviceRec) :
    dbGet (dbSet db k r) k = some r := by
  simp [dbGet, dbSet]

/-- Writes do not affect other keys. -/
theorem dbGet_dbSet_ne (db : Registry) (k kk : String) (r : DeviceRec)
    (h : kk ≠ k) : dbGet (dbSet db k r) kk = dbGet db kk := by
  have hb : (k == kk) = false := beq_eq_false_iff_ne.mpr (Ne.symm h)
  simp [dbGet, dbSet, List.find?, hb]

/-- `validateAppAttest` either resolves `false` with the registry
untouched, or resolves `true` having replaced exactly the operated
record's `counter` (with a strictly larger value) and `lastUsed`. -/
theorem validateAppAttest_cases (env : Env) (O : Oracle) (db : Registry)
    (a k c : String) (n : Nat) :
    validateAppAttest env O db a k c n = (false, db) ∨
    ∃ rec ctr ad sg,
      dbGet db (getSafeFirestoreId k) = some rec ∧
      O.decodeAssertion (O.b64decode a) = some (ad, sg) ∧
      authDataCounter ad = some ctr ∧
      rec.counter < ctr ∧
      validateAppAttest env O db a k c n =
        (true, dbSet db (getSafeFirestoreId k)
          { rec with counter := ctr, lastUsed := n }) := by
  cases hg : dbGet db (getSafeFirestoreId k) with
  | none => left; simp [validateAppAttest, hg]
  | some rec =>
    cases hd : O.decodeAssertion (O.b64decode a) with
    | none => left; simp [validateAppAttest, hg, hd]
    | some p =>
      obtain ⟨ad, sg⟩ := p
      by_cases hv : verifyAppIdHash env O ad = true
      · cases hl : credIdLen rec.publicKey with
        | none => left; simp [validateAppAttest, hg, hd, hv, hl]
        | some len =>
          cases hc : O.decodeCose (publicKeyRegion rec.publicKey len) with
          | none => left; simp [validateAppAttest, hg, hd, hv, hl, hc]
          | some q =>
            obtain ⟨x, y⟩ := q
            by_cases hs : O.ecdsaVerify x y
                (O.sha256 (ad ++ O.sha256 (O.b64decode c.trim))) sg = true
            · cases hctr : authDataCounter ad with
              | none =>
                left; simp [validateAppAttest, hg, hd, hv, hl, hc, hs, hctr]
              | some ctr =>
                by_cases hle : ctr ≤ rec.counter
                · left
                  simp [validateAppAttest, hg, hd, hv, hl, hc, hs, hctr, hle]
                · right
                  exact ⟨rec, ctr, ad, sg, rfl, rfl, hctr, by omega, by
                    simp [validateAppAttest, hg, hd, hv, hl, hc, hs, hctr, hle]⟩
            · left; simp [validateAppAttest, hg, hd, hv, hl, hc, hs]
      · left; simp [validateAppAttest, hg, hd, hv]

/-- `validateAppAttest` never writes a key other than the operated
storage key. -/
theorem validateAppAttest_frame (env : Env) (O : Oracle) (db : Registry)
    (a k c : String) (n : Nat) (kk : String)
    (h : kk ≠ getSafeFirestoreId k) :
    dbGet (validateAppAttest env O db a k c n).2 kk = dbGet db kk := by
  rcases validateAppAttest_cases env O db a k c n with heq |
    ⟨rec, ctr, ad, sg, hg, hd, hctr, hlt, heq⟩
  · rw [heq]
  · rw [heq]; exact dbGet_dbSet_ne _ _ _ _ h

/-- `validateAppAttest` never decreases any stored counter. -/
theorem validateAppAttest_counter_mono (env : Env) (O : Oracle)
    (db : Registry) (a k c : String) (n : Nat) (kk : String) :
    storedCounter db kk ≤
      storedCounter (validateAppAttest env O db a k c n).2 kk := by
  rcases validateAppAttest_cases env O db a k c n with heq |
    ⟨rec, ctr, ad, sg, hg, hd, hctr, hlt, heq⟩
  · rw [heq]
  · rw [heq]
    by_cases hk : kk = getSafeFirestoreId k
    · subst hk
      simp [storedCounter, dbGet_dbSet_self, hg]
      omega
    · rw [storedCounter, storedCounter, dbGet_dbSet_ne _ _ _ _ hk]

/-- `validateAppAttest` never changes any record's `revoked` flag. -/
theorem validateAppAttest_preserves_revoked (env : Env) (O : Oracle)
    (db : Registry) (a k c : String) (n : Nat) (kk : String)
    (h : docRevoked (dbGet db kk) = true) :
    docRevoked (dbGet (validateAppAttest env O db a k c n).2 kk)
      = true := by
  rcases validateAppAttest_cases env O db a k c n with heq |
    ⟨rec, ctr, ad, sg, hg, hd, hctr, hlt, heq⟩
  · rw [heq]; exact h
  · rw [heq]
    by_cases hk : kk = getSafeFirestoreId k
    · subst hk
      rw [hg] at h
      simp [docRevoked] at h
      simp [docRevoked, dbGet_dbSet_self, h]
    · rw [dbGet_dbSet_ne _ _ _ _ hk]; exact h

/-- `issueSecret` never writes a key other than the operated storage
key. -/
theorem issueSecret_frame (env : Env) (O : Oracle) (db : Registry)
    (doc : Option DeviceRec) (sk d p s : String) (n : Nat)
    (kk : String) (h : kk ≠ sk) :
    dbGet (issueSecret env O db doc sk d p s n).2 kk = dbGet db kk := by
  cases ht : targetApiKey env s with
  | none => simp [issueSecret, ht]
  | some apiKey =>
    cases doc with
    | none => simp [issueSecret, ht, dbGet_dbSet_ne _ _ _ _ h]
    | some rec =>
      by_cases hc : rec.revoked = false ∧ rec.service = some s
      · simp only [issueSecret, ht, hc, if_true]
        unfold dbUpdate
        cases hgu : dbGet db sk with
        | none => rfl
        | some r => exact dbGet_dbSet_ne _ _ _ _ h
      · simp [issueSecret, ht, hc, dbGet_dbSet_ne _ _ _ _ h]

/-- `issueSecret` never decreases any stored counter. -/
theorem issueSecret_counter_mono (env : Env) (O : Oracle)
    (db : Registry) (doc : Option DeviceRec) (sk d p s : String)
    (n : Nat) (kk : String) :
    storedCounter db kk ≤
      storedCounter (issueSecret env O db doc sk d p s n).2 kk := by
  by_cases hk : kk = sk
  case neg =>
    rw [storedCounter, storedCounter, issueSecret_frame env O db doc sk d p s n kk hk]
  case pos =>
    subst hk
    cases ht : targetApiKey env s with
    | none => simp [issueSecret, ht]
    | some apiKey =>
      have hfresh : ∀ blob,
          storedCounter db kk ≤ storedCounter
            (dbSet db kk
              { (dbGet db kk).getD {} with
                deviceId := d
                service := some s
                platform := some p
                cachedSecret := some blob
                lastUsed := n
                revoked := false
                requestCount := 1 }) kk := by
        intro blob
        cases hgu : dbGet db kk with
        | none => simp [storedCounter, dbGet_dbSet_self, hgu]
        | some r => simp [storedCounter, dbGet_dbSet_self, hgu]
      cases doc with
      | none => simpa [issueSecret, ht] using hfresh (O.encryptBlob apiKey d s)
      | some rec =>
        by_cases hc : rec.revoked = false ∧ rec.service = some s
        · simp only [issueSecret, ht, hc, if_true]
          unfold dbUpdate
          cases hgu : dbGet db kk with
          | none => exact Nat.le_refl _
          | some r => simp [storedCounter, dbGet_dbSet_self, hgu]
        · simpa [issueSecret, ht, hc] using hfresh (O.encryptBlob apiKey d s)

/-- `registerDevice` never writes a key other than the operated
storage key. -/
theorem registerDevice_frame (env : Env) (O : Oracle) (db : Registry)
    (k a c : String) (n : Nat) (kk : String)
    (h : kk ≠ getSafeFirestoreId k) :
    dbGet (registerDevice env O db k a c n).2 kk = dbGet db kk := by
  by_cases h0 : k = "" ∨ a = "" ∨ c = ""
  · simp [registerDevice, h0]
  · cases hdec : O.decodeAttestationAuthData (O.b64decode a) with
    | none => simp [registerDevice, h0, hdec]
    | some oad =>
      cases oad with
      | none => simp [registerDevice, h0, hdec]
      | some ad =>
        by_cases hv : verifyAppIdHash env O ad = true
        · simp [registerDevice, h0, hdec, hv, dbGet_dbSet_ne _ _ _ _ h]
        · simp [registerDevice, h0, hdec, hv]

/-- `registerDevice` never clears a record's `revoked` flag (its
merge-write does not touch the field). -/
theorem registerDevice_preserves_revoked (env : Env) (O : Oracle)
    (db : Registry) (k a c : String) (n : Nat) (kk : String)
    (h : docRevoked (dbGet db kk) = true) :
    docRevoked (dbGet (registerDevice env O db k a c n).2 kk)
      = true := by
  by_cases hk : kk = getSafeFirestoreId k
  case neg => rw [registerDevice_frame env O db k a c n kk hk]; exact h
  case pos =>
    subst hk
    by_cases h0 : k = "" ∨ a = "" ∨ c = ""
    · simpa [registerDevice, h0] using h
    · cases hdec : O.decodeAttestationAuthData (O.b64decode a) with
      | none => simpa [registerDevice, h0, hdec] using h
      | some oad =>
        cases oad with
        | none => simpa [registerDevice, h0, hdec] using h
        | some ad =>
          by_cases hv : verifyAppIdHash env O ad = true
          · cases hget : dbGet db (getSafeFirestoreId k) with
            | none => rw [hget] at h; simp [docRevoked] at h
            | some rec =>
              rw [hget] at h
              simp [docRevoked] at h
              simp [registerDevice, h0, hdec, hv, hget,
                dbGet_dbSet_self, docRevoked, mergeRegister, h]
          · simpa [registerDevice, h0, hdec, hv] using h

/-- `revokeDevice` never writes a key other than the operated storage
key. -/
theorem revokeDevice_frame (O : Oracle) (db : Registry)
    (d r t : String) (n : Nat) (kk : String)
    (h : kk ≠ getSafeFirestoreId d) :
    dbGet (revokeDevice O db d r t n).2 kk = dbGet db kk := by
  by_cases h0 : t = ""
  · simp [revokeDevice, h0]
  · cases htok : O.verifyIdToken t with
    | none => simp [revokeDevice, h0, htok]
    | some email =>
      by_cases he : email ≠ adminEmail
      · simp [revokeDevice, h0, htok, he]
      · by_cases hd0 : d = ""
        · simp [revokeDevice, h0, htok, he, hd0]
        · cases hget : dbGet db (getSafeFirestoreId d) with
          | none => simp [revokeDevice, h0, htok, he, hd0, hget]
          | some rec =>
            simp [revokeDevice, h0, htok, he, hd0, hget,
              dbGet_dbSet_ne _ _ _ _ h]

/-- `revokeDevice` never changes any stored counter. -/
theorem revokeDevice_counter_mono (O : Oracle) (db : Registry)
    (d r t : String) (n : Nat) (kk : String) :
    storedCounter db kk ≤ storedCounter (revokeDevice O db d r t n).2 kk := by
  by_cases hk : kk = getSafeFirestoreId d
  case neg =>
    rw [storedCounter, storedCounter, revokeDevice_frame O db d r t n kk hk]
  case pos =>
    subst hk
    by_cases h0 : t = ""
    · simp [revokeDevice, h0]
    · cases htok : O.verifyIdToken t with
      | none => simp [revokeDevice, h0, htok]
      | some email =>
        by_cases he : email ≠ adminEmail
        · simp [revokeDevice, h0, htok, he]
        · by_cases hd0 : d = ""
          · simp [revokeDevice, h0, htok, he, hd0]
          · cases hget : dbGet db (getSafeFirestoreId d) with
            | none => simp [revokeDevice, h0, htok, he, hd0, hget]
            | some rec =>
              simp [revokeDevice, h0, htok, he, hd0, hget,
                storedCounter, dbGet_dbSet_self]

/-- `revokeDevice` never clears a `revoked` flag. -/
theorem revokeDevice_preserves_revoked (O : Oracle) (db : Registry)
    (d r t : String) (n : Nat) (kk : String)
    (h : docRevoked (dbGet db kk) = true) :
    docRevoked (dbGet (revokeDevice O db d r t n).2 kk) = true := by
  by_cases hk : kk = getSafeFirestoreId d
  case neg => rw [revokeDevice_frame O db d r t n kk hk]; exact h
  case pos =>
    subst hk
    by_cases h0 : t = ""
    · simpa [revokeDevice, h0] using h
    · cases htok : O.verifyIdToken t with
      | none => simpa [revokeDevice, h0, htok] using h
      | some email =>
        by_cases he : email ≠ adminEmail
        · simpa [revokeDevice, h0, htok, he] using h
        · by_cases hd0 : d = ""
          · simpa [revokeDevice, h0, htok, he, hd0] using h
          · cases hget : dbGet db (getSafeFirestoreId d) with
            | none => simpa [revokeDevice, h0, htok, he, hd0, hget] using h
            | some rec =>
              simp [revokeDevice, h0, htok, he, hd0, hget,
                dbGet_dbSet_self, docRevoked]

/-- `secureKey` never writes a key other than the operated storage
key. -/
theorem secureKey_frame (env : Env) (O : Oracle) (db : Registry)
    (p d a c s : String) (n : Nat) (kk : String)
    (h : kk ≠ getSafeFirestoreId d) :
    dbGet (secureKey env O db p d a c s n).2 kk = dbGet db kk := by
  by_cases h0 : p = "" ∨ d = "" ∨ a = ""
  · simp [secureKey, h0]
  · have hp0 : ¬(p = "") := fun hx => h0 (Or.inl hx)
    have hd0 : ¬(d = "") := fun hx => h0 (Or.inr (Or.inl hx))
    have ha0 : ¬(a = "") := fun hx => h0 (Or.inr (Or.inr hx))
    by_cases hrev : docRevoked (dbGet db (getSafeFirestoreId d)) = true
    · simp [secureKey, h0, hrev]
    · by_cases hios : p = "ios"
      · subst hios
        by_cases hch : c = ""
        · simp [secureKey, hp0, hd0, ha0, hrev, hch]
        · by_cases hv : (validateAppAttest env O db a d c n).1 = true
          · have hred : (secureKey env O db "ios" d a c s n).2
                = (issueSecret env O (validateAppAttest env O db a d c n).2
                    (dbGet db (getSafeFirestoreId d)) (getSafeFirestoreId d)
                    d "ios" s n).2 := by
              simp [secureKey, hp0, hd0, ha0, hrev, hch, hv]
            rw [hred, issueSecret_frame env O _ _ _ _ _ _ _ _ h,
              validateAppAttest_frame env O db a d c n kk h]
          · have hred : (secureKey env O db "ios" d a c s n).2
                = (validateAppAttest env O db a d c n).2 := by
              simp [secureKey, hp0, hd0, ha0, hrev, hch, hv]
            rw [hred, validateAppAttest_frame env O db a d c n kk h]
      · by_cases hand : p = "android"
        · subst hand
          by_cases hv : validateAndroidAttestation env O a = true
          · have hred : (secureKey env O db "android" d a c s n).2
                = (issueSecret env O db (dbGet db (getSafeFirestoreId d))
                    (getSafeFirestoreId d) d "android" s n).2 := by
              simp [secureKey, hp0, hd0, ha0, hrev, hv]
            rw [hred, issueSecret_frame env O db _ _ _ _ _ _ _ h]
          · have hred : (secureKey env O db "android" d a c s n).2 = db := by
              simp [secureKey, hp0, hd0, ha0, hrev, hv]
            rw [hred]
        · have hred : (secureKey env O db p d a c s n).2 = db := by
            simp [secureKey, hp0, hd0, ha0, hrev, hios, hand]
          rw [hred]

/-- `secureKey` never decreases any stored counter. -/
theorem secureKey_counter_mono (env : Env) (O : Oracle) (db : Registry)
    (p d a c s : String) (n : Nat) (kk : String) :
    storedCounter db kk ≤ storedCounter (secureKey env O db p d a c s n).2 kk := by
  by_cases h0 : p = "" ∨ d = "" ∨ a = ""
  · simp [secureKey, h0]
  · have hp0 : ¬(p = "") := fun hx => h0 (Or.inl hx)
    have hd0 : ¬(d = "") := fun hx => h0 (Or.inr (Or.inl hx))
    have ha0 : ¬(a = "") := fun hx => h0 (Or.inr (Or.inr hx))
    by_cases hrev : docRevoked (dbGet db (getSafeFirestoreId d)) = true
    · simp [secureKey, h0, hrev]
    · by_cases hios : p = "ios"
      · subst hios
        by_cases hch : c = ""
        · simp [secureKey, hp0, hd0, ha0, hrev, hch]
        · by_cases hv : (validateAppAttest env O db a d c n).1 = true
          · have hred : (secureKey env O db "ios" d a c s n).2
                = (issueSecret env O (validateAppAttest env O db a d c n).2
                    (dbGet db (getSafeFirestoreId d)) (getSafeFirestoreId d)
                    d "ios" s n).2 := by
              simp [secureKey, hp0, hd0, ha0, hrev, hch, hv]
            rw [hred]
            exact Nat.le_trans
              (validateAppAttest_counter_mono env O db a d c n kk)
              (issueSecret_counter_mono env O _ _ _ _ _ _ _ kk)
          · have hred : (secureKey env O db "ios" d a c s n).2
                = (validateAppAttest env O db a d c n).2 := by
              simp [secureKey, hp0, hd0, ha0, hrev, hch, hv]
            rw [hred]
            exact validateAppAttest_counter_mono env O db a d c n kk
      · by_cases hand : p = "android"
        · subst hand
          by_cases hv : validateAndroidAttestation env O a = true
          · have hred : (secureKey env O db "android" d a c s n).2
                = (issueSecret env O db (dbGet db (getSafeFirestoreId d))
                    (getSafeFirestoreId d) d "android" s n).2 := by
              simp [secureKey, hp0, hd0, ha0, hrev, hv]
            rw [hred]
            exact issueSecret_counter_mono env O db _ _ _ _ _ _ kk
          · have hred : (secureKey env O db "android" d a c s n).2 = db := by
              simp [secureKey, hp0, hd0, ha0, hrev, hv]
            rw [hred]
        · have hred : (secureKey env O db p d a c s n).2 = db := by
            simp [secureKey, hp0, hd0, ha0, hrev, hios, hand]
          rw [hred]

/-- `secureKey` never clears a `revoked` flag: on the operated key it
denies before writing, on others it does not write. -/
theorem secureKey_preserves_revoked (env : Env) (O : Oracle)
    (db : Registry) (p d a c s : String) (n : Nat) (kk : String)
    (h : docRevoked (dbGet db kk) = true) :
    docRevoked (dbGet (secureKey env O db p d a c s n).2 kk) = true := by
  by_cases hk : kk = getSafeFirestoreId d
  case neg => rw [secureKey_frame env O db p d a c s n kk hk]; exact h
  case pos =>
    subst hk
    by_cases h0 : p = "" ∨ d = "" ∨ a = ""
    · simpa [secureKey, h0] using h
    · have hred : (secureKey env O db p d a c s n).2 = db := by
        simp [secureKey, h0, h]
      rw [hred]
      exact h

/-- A non-registration step never decreases any stored counter. -/
theorem step_counter_mono (env : Env) (O : Oracle) (db : Registry)
    (op : Op) (kk : String) (h : op.isRegister = false) :
    storedCounter db kk ≤ storedCounter (step env O db op) kk := by
  cases op with
  | register k a c n => simp [Op.isRegister] at h
  | assertOp a k c n => exact validateAppAttest_counter_mono env O db a k c n kk
  | secure p d a c s n => exact secureKey_counter_mono env O db p d a c s n kk
  | revoke d r t n => exact revokeDevice_counter_mono O db d r t n kk

/-- Every step preserves a set `revoked` flag. -/
theorem step_preserves_revoked (env : Env) (O : Oracle) (db : Registry)
    (op : Op) (kk : String) (h : docRevoked (dbGet db kk) = true) :
    docRevoked (dbGet (step env O db op) kk) = true := by
  cases op with
  | register k a c n =>
    exact registerDevice_preserves_revoked env O db k a c n kk h
  | assertOp a k c n =>
    exact validateAppAttest_preserves_revoked env O db a k c n kk h
  | secure p d a c s n =>
    exact secureKey_preserves_revoked env O db p d a c s n kk h
  | revoke d r t n =>
    exact revokeDevice_preserves_revoked O db d r t n kk h

/-- C2: whenever the counter embedded in the presented authenticator
data is at most the stored counter, assertion validation resolves
`false` with the registry byte-for-byte unchanged; and whenever
validation does change the registry, it changed exactly the operated
record's `counter` (to a strictly larger value) and `lastUsed`, i.e.
those fields are written only when the replay check passes. -/
theorem assertion_replay_rejected :
    (∀ (env : Env) (O : Oracle) (db : Registry) (a k c : String)
        (n : Nat) (rec : DeviceRec) (ad sg : List Nat) (ctr : Nat),
      dbGet db (getSafeFirestoreId k) = some rec →
      O.decodeAssertion (O.b64decode a) = some (ad, sg) →
      authDataCounter ad = some ctr →
      ctr ≤ rec.counter →
      validateAppAttest env O db a k c n = (false, db)) ∧
    (∀ (env : Env) (O : Oracle) (db : Registry) (a k c : String)
        (n : Nat),
      (validateAppAttest env O db a k c n).2 ≠ db →
      ∃ rec ctr,
        dbGet db (getSafeFirestoreId k) = some rec ∧
        rec.counter < ctr ∧
        (validateAppAttest env O db a k c n).2 =
          dbSet db (getSafeFirestoreId k)
            { rec with counter := ctr, lastUsed := n }) := by
  constructor
  · intro env O db a k c n rec ad sg ctr hget hdec hctr hle
    rcases validateAppAttest_cases env O db a k c n with heq |
      ⟨rec', ctr', ad', sg', hget', hdec', hctr', hlt', heq'⟩
    · exact heq
    · rw [hget] at hget'
      injection hget' with hrec
      rw [hdec] at hdec'
      injection hdec' with hp
      cases hp
      rw [hctr] at hctr'
      injection hctr' with hc
      subst hrec
      exfalso
      omega
  · intro env O db a k c n hne
    rcases validateAppAttest_cases env O db a k c n with heq |
      ⟨rec, ctr, ad, sg, hget, hdec, hctr, hlt, heq⟩
    · exact absurd (congrArg Prod.snd heq) hne
    · exact ⟨rec, ctr, hget, hlt, congrArg Prod.snd heq⟩

/-- C2 witness: a concrete replayed assertion (embedded counter 5,
stored counter 5) is rejected with the registry unchanged. -/
theorem assertion_replay_rejected_witness :
    dbGet dbFix (getSafeFirestoreId "k") = some recFix ∧
    oracleFix.decodeAssertion (oracleFix.b64decode "a")
      = some (adFix, [1]) ∧
    authDataCounter adFix = some 5 ∧
    5 ≤ recFix.counter ∧
    validateAppAttest envFix oracleFix dbFix "a" "k" "c" 9
      = (false, dbFix) :=
  ⟨by decide, rfl, by decide, by decide,
    assertion_replay_rejected.1 envFix oracleFix dbFix "a" "k" "c" 9
      recFix adFix [1] 5 (by decide) rfl (by decide) (by decide)⟩

/-- C3 counterexample: registration uses `set(..., { merge: true })`
with `counter: 0` and never checks for an existing record, so
re-registering a key after a successful assertion resets its stored
counter from 5 back to 0 — a decrease, refuting non-decrease across
arbitrary operation sequences that include registration. -/
theorem register_resets_counter :
    (dbGet (run envFix oracleFix []
        [.register "k" "att" "ch" 0, .assertOp "a" "k" "ch" 1])
      (getSafeFirestoreId "k")).map DeviceRec.counter = some 5 ∧
    (dbGet (run envFix oracleFix []
        [.register "k" "att" "ch" 0, .assertOp "a" "k" "ch" 1,
         .register "k" "att" "ch" 2])
      (getSafeFirestoreId "k")).map DeviceRec.counter = some 0 ∧
    ¬ (5 : Nat) ≤ 0 := by
  refine ⟨by decide, by decide, by decide⟩

/-- C3 (amended): across any sequence of assertion validations, secret
issuances and revocations — i.e. every core operation except
(re-)registration — every stored counter is non-decreasing, for every
environment and every oracle behaviour. -/
theorem counter_monotone_without_reregistration
    (env : Env) (O : Oracle) (db : Registry) (ops : List Op)
    (kk : String) (h : ∀ op ∈ ops, op.isRegister = false) :
    storedCounter db kk ≤ storedCounter (run env O db ops) kk := by
  induction ops generalizing db with
  | nil => exact Nat.le_refl _
  | cons op rest ih =>
    have hstep := step_counter_mono env O db op kk (h op (by simp))
    have hrest := ih (step env O db op)
      (fun o ho => h o (by simp [ho]))
    exact Nat.le_trans hstep hrest

/-- C3 witness: the amended monotonicity applied to a concrete
assertion (counter 5 → 5, i.e. replay rejected, unchanged) followed by
a revocation on the one-device registry. -/
theorem counter_monotone_without_reregistration_witness :
    (∀ op ∈ [Op.assertOp "a" "k" "ch" 3, Op.revoke "k" "" "tok" 4],
      op.isRegister = false) ∧
    storedCounter dbFix "k" ≤
      storedCounter (run envFix oracleFix dbFix
        [Op.assertOp "a" "k" "ch" 3, Op.revoke "k" "" "tok" 4]) "k" :=
  ⟨by decide,
    counter_monotone_without_reregistration envFix oracleFix dbFix
      [Op.assertOp "a" "k" "ch" 3, Op.revoke "k" "" "tok" 4] "k"
      (by decide)⟩

/-- C4: a secret request for a device whose record has `revoked = true`
is denied with the Revoked outcome and an untouched registry, for
*every* oracle behaviour — in particular independent of whether the
assertion signature would verify, because the denial happens before any
cryptographic work; and every core operation preserves a set `revoked`
flag, so a revoked device never again receives a sealed secret through
the public interface. -/
theorem revoked_devices_locked_out :
    (∀ (env : Env) (O : Oracle) (db : Registry) (p d a c s : String)
        (n : Nat),
      docRevoked (dbGet db (getSafeFirestoreId d)) = true →
      p ≠ "" → d ≠ "" → a ≠ "" →
      secureKey env O db p d a c s n = (.revoked403, db)) ∧
    (∀ (env : Env) (O : Oracle) (db : Registry) (ops : List Op)
        (kk : String),
      docRevoked (dbGet db kk) = true →
      docRevoked (dbGet (run env O db ops) kk) = true) := by
  constructor
  · intro env O db p d a c s n hrev hp hd ha
    have h0 : ¬(p = "" ∨ d = "" ∨ a = "") := by
      simp [hp, hd, ha]
    simp [secureKey, h0, hrev]
  · intro env O db ops kk h
    induction ops generalizing db with
    | nil => exact h
    | cons op rest ih =>
      exact ih (step env O db op) (step_preserves_revoked env O db op kk h)

/-- C4 witness: the denial part applied to a concrete revoked record
(under an oracle whose signature verification would succeed), and the
preservation part run over a registration, an assertion attempt and a
secret request. -/
theorem revoked_devices_locked_out_witness :
    (docRevoked (dbGet [("k", { recFix with revoked := true })]
        (getSafeFirestoreId "k")) = true ∧
      ("ios" : String) ≠ "" ∧ ("k" : String) ≠ "" ∧ ("a" : String) ≠ "" ∧
      secureKey envFix oracleFix [("k", { recFix with revoked := true })]
          "ios" "k" "a" "ch" "congress" 5
        = (.revoked403, [("k", { recFix with revoked := true })])) ∧
    (docRevoked (dbGet [("k", { recFix with revoked := true })] "k")
        = true ∧
      docRevoked
        (dbGet (run envFix oracleFix
          [("k", { recFix with revoked := true })]
          [.register "k" "att" "ch" 6, .assertOp "a" "k" "ch" 7,
           .secure "ios" "k" "a" "ch" "congress" 8]) "k") = true) :=
  ⟨⟨by decide, by decide, by decide, by decide,
    revoked_devices_locked_out.1 envFix oracleFix
      [("k", { recFix with revoked := true })] "ios" "k" "a" "ch"
      "congress" 5 (by decide) (by decide) (by decide) (by decide)⟩,
   ⟨by decide,
    revoked_devices_locked_out.2 envFix oracleFix
      [("k", { recFix with revoked := true })]
      [.register "k" "att" "ch" 6, .assertOp "a" "k" "ch" 7,
       .secure "ios" "k" "a" "ch" "congress" 8] "k" (by decide)⟩⟩

/-- C5 counterexample: a registration carrying a malformed
base64/CBOR attestation blob is answered with the handler's catch-all
500 ("Registration failed"), not with an authentication-failure
denial, refuting "never an internal-server-error result" for the
registration path. -/
theorem malformed_registration_returns_500 :
    registerDevice envFix oracleBad [] "k" "bad" "ch" 0
      = (.err500, []) ∧
    RegisterResult.err500 ≠ RegisterResult.forbidden403 ∧
    RegisterResult.err500 ≠ RegisterResult.bad400 := by
  refine ⟨by decide, by decide, by decide⟩

/-- C5 (amended): a malformed assertion blob makes assertion
validation resolve `false` (a deny, no crash, registry untouched) for
every oracle and environment; a malformed registration blob is caught
and answered with the handled 500 response, registry untouched — a
handled error response rather than the spec's promised deny. -/
theorem malformed_input_handling :
    (∀ (env : Env) (O : Oracle) (db : Registry) (a k c : String)
        (n : Nat),
      O.decodeAssertion (O.b64decode a) = none →
      validateAppAttest env O db a k c n = (false, db)) ∧
    (∀ (env : Env) (O : Oracle) (db : Registry) (k a c : String)
        (n : Nat),
      O.decodeAttestationAuthData (O.b64decode a) = none →
      k ≠ "" → a ≠ "" → c ≠ "" →
      registerDevice env O db k a c n = (.err500, db)) := by
  constructor
  · intro env O db a k c n hdec
    cases hg : dbGet db (getSafeFirestoreId k) with
    | none => simp [validateAppAttest, hg]
    | some rec => simp [validateAppAttest, hg, hdec]
  · intro env O db k a c n hdec hk ha hc
    have h0 : ¬(k = "" ∨ a = "" ∨ c = "") := by
      simp [hk, ha, hc]
    simp [registerDevice, h0, hdec]

/-- C5 witness: both parts applied to the throwing-decoder oracle. -/
theorem malformed_input_handling_witness :
    (oracleBad.decodeAssertion (oracleBad.b64decode "bad") = none ∧
      validateAppAttest envFix oracleBad dbFix "bad" "k" "c" 1
        = (false, dbFix)) ∧
    (oracleBad.decodeAttestationAuthData (oracleBad.b64decode "bad")
        = none ∧
      ("k" : String) ≠ "" ∧ ("bad" : String) ≠ "" ∧ ("c" : String) ≠ "" ∧
      registerDevice envFix oracleBad dbFix "k" "bad" "c" 2
        = (.err500, dbFix)) :=
  ⟨⟨rfl,
    malformed_input_handling.1 envFix oracleBad dbFix "bad" "k" "c" 1 rfl⟩,
   ⟨rfl, by decide, by decide, by decide,
    malformed_input_handling.2 envFix oracleBad dbFix "k" "bad" "c" 2 rfl
      (by decide) (by decide) (by decide)⟩⟩

/-- C8: on every authenticator-data buffer laid out per the vendor
scheme, the parser reads the relying-party hash as the first 32 bytes,
the counter as a big-endian uint32 at offset 33, the credential-id
length as a big-endian uint16 at offset 53, and the embedded public-key
region as the bytes from offset `55 + credIdLen` on. -/
theorem authData_offsets (rp : List Nat) (flags : Nat)
    (c3 c2 c1 c0 : Nat) (aaguid : List Nat) (l1 l0 : Nat)
    (credId cose : List Nat)
    (hrp : rp.length = 32) (hag : aaguid.length = 16)
    (hcid : credId.length = l1 * 256 + l0) :
    relyingPartyHash
        (authDataAssemble rp flags c3 c2 c1 c0 aaguid l1 l0 credId cose)
      = rp ∧
    authDataCounter
        (authDataAssemble rp flags c3 c2 c1 c0 aaguid l1 l0 credId cose)
      = some (((c3 * 256 + c2) * 256 + c1) * 256 + c0) ∧
    credIdLen
        (authDataAssemble rp flags c3 c2 c1 c0 aaguid l1 l0 credId cose)
      = some (l1 * 256 + l0) ∧
    publicKeyRegion
        (authDataAssemble rp flags c3 c2 c1 c0 aaguid l1 l0 credId cose)
        (l1 * 256 + l0)
      = cose := by
  have h33 : (rp ++ [flags]).length = 33 := by
    simp [hrp]
  have h53 :
      (rp ++ [flags] ++ [c3, c2, c1, c0] ++ aaguid).length = 53 := by
    simp [hrp, hag]
  have h55 :
      (rp ++ [flags] ++ [c3, c2, c1, c0] ++ aaguid ++ [l1, l0]
        ++ credId).length = 55 + (l1 * 256 + l0) := by
    simp [hrp, hag, hcid]
    omega
  refine ⟨?_, ?_, ?_, ?_⟩
  · have hsplit :
        authDataAssemble rp flags c3 c2 c1 c0 aaguid l1 l0 credId cose
          = rp ++ ([flags] ++ ([c3, c2, c1, c0] ++ (aaguid
            ++ ([l1, l0] ++ (credId ++ cose))))) := by
      simp [authDataAssemble]
    rw [relyingPartyHash, hsplit, List.take_left' hrp]
  · have hsplit :
        authDataAssemble rp flags c3 c2 c1 c0 aaguid l1 l0 credId cose
          = (rp ++ [flags]) ++ (c3 :: c2 :: c1 :: c0 :: (aaguid
            ++ ([l1, l0] ++ (credId ++ cose)))) := by
      simp [authDataAssemble]
    rw [authDataCounter, readUInt32BE, hsplit, List.drop_left' h33]
  · have hsplit :
        authDataAssemble rp flags c3 c2 c1 c0 aaguid l1 l0 credId cose
          = (rp ++ [flags] ++ [c3, c2, c1, c0] ++ aaguid)
            ++ (l1 :: l0 :: (credId ++ cose)) := by
      simp [authDataAssemble]
    rw [credIdLen, readUInt16BE, hsplit, List.drop_left' h53]
  · have hsplit :
        authDataAssemble rp flags c3 c2 c1 c0 aaguid l1 l0 credId cose
          = (rp ++ [flags] ++ [c3, c2, c1, c0] ++ aaguid ++ [l1, l0]
            ++ credId) ++ cose := by
      simp [authDataAssemble]
    rw [publicKeyRegion, hsplit, List.drop_left' h55]

/-- C8 witness: the layout theorem applied to a concrete 60-byte
record. -/
theorem authData_offsets_witness :
    (List.replicate 32 0 : List Nat).length = 32 ∧
    (List.replicate 16 0 : List Nat).length = 16 ∧
    ([7] : List Nat).length = 0 * 256 + 1 ∧
    (relyingPartyHash
        (authDataAssemble (List.replicate 32 0) 1 0 0 0 5
          (List.replicate 16 0) 0 1 [7] [9, 9])
      = List.replicate 32 0 ∧
    authDataCounter
        (authDataAssemble (List.replicate 32 0) 1 0 0 0 5
          (List.replicate 16 0) 0 1 [7] [9, 9])
      = some (((0 * 256 + 0) * 256 + 0) * 256 + 5) ∧
    credIdLen
        (authDataAssemble (List.replicate 32 0) 1 0 0 0 5
          (List.replicate 16 0) 0 1 [7] [9, 9])
      = some (0 * 256 + 1) ∧
    publicKeyRegion
        (authDataAssemble (List.replicate 32 0) 1 0 0 0 5
          (List.replicate 16 0) 0 1 [7] [9, 9])
        (0 * 256 + 1)
      = [9, 9]) :=
  ⟨by decide, by decide, by decide,
    authData_offsets (List.replicate 32 0) 1 0 0 0 5
      (List.replicate 16 0) 0 1 [7] [9, 9]
      (by decide) (by decide) (by decide)⟩

/-- C9: the sealing key is derived by HKDF-SHA256 with the master
secret as IKM, the deviceId as salt, `service ++ "-api-key-encryption"`
as info and 32-byte output; for any injective key-derivation behaviour,
requests differing in deviceId or in service derive different keys
under the same master secret. -/
theorem deviceKeyCall_domain_separation :
    (∀ (m : List Nat) (d s : String),
      deviceKeyCall m d s =
        { hashAlg := "sha256", ikm := m, salt := d,
          info := s ++ "-api-key-encryption", outLen := 32 }) ∧
    ∀ {K : Type} (hkdf : HkdfCall → K), Function.Injective hkdf →
      ∀ (m : List Nat) (d₁ s₁ d₂ s₂ : String), d₁ ≠ d₂ ∨ s₁ ≠ s₂ →
        hkdf (deviceKeyCall m d₁ s₁) ≠ hkdf (deviceKeyCall m d₂ s₂) := by
  refine ⟨fun m d s => rfl, ?_⟩
  intro K hkdf hinj m d₁ s₁ d₂ s₂ hne heq
  have h := hinj heq
  rcases hne with hd | hs
  · exact hd (congrArg HkdfCall.salt h)
  · have hinfo : s₁ ++ "-api-key-encryption" = s₂ ++ "-api-key-encryption" :=
      congrArg HkdfCall.info h
    apply hs
    have hdata := congrArg String.data hinfo
    rw [String.data_append, String.data_append] at hdata
    exact String.ext (List.append_cancel_right hdata)

/-- C9 witness: the domain-separation part applied with the identity
derivation (injective) to two distinct device ids. -/
theorem deviceKeyCall_domain_separation_witness :
    Function.Injective (id : HkdfCall → HkdfCall) ∧
    (("devA" : String) ≠ "devB" ∨ ("congress" : String) ≠ "congress") ∧
    id (deviceKeyCall [] "devA" "congress") ≠
      id (deviceKeyCall [] "devB" "congress") :=
  ⟨fun _ _ h => h, Or.inl (by decide),
    deviceKeyCall_domain_separation.2 id (fun _ _ h => h) []
      "devA" "congress" "devB" "congress" (Or.inl (by decide))⟩

/-- C10: `getSafeFirestoreId` is not injective — the distinct device
ids `"a/b"` and `"a_b"` map to one storage key, so a registration under
one is visible to lookups under the other, and revoking the second
revokes the first. -/
theorem sanitizer_aliasing :
    getSafeFirestoreId "a/b" = getSafeFirestoreId "a_b" ∧
    ("a/b" : String) ≠ "a_b" ∧
    ((dbGet (step envFix oracleFix [] (.register "a/b" "att" "ch" 0))
        (getSafeFirestoreId "a_b")).map DeviceRec.keyId = some "a/b") ∧
    docRevoked
      (dbGet
        (run envFix oracleFix []
          [.register "a/b" "att" "ch" 0, .revoke "a_b" "" "tok" 1])
        (getSafeFirestoreId "a/b")) = true := by
  refine ⟨by decide, by decide, by decide, by decide⟩

/-- C1 (code bug): the handler feeds `JSON.stringify(req.body)` — a
re-serialisation of the parsed body — to HMAC-SHA256, not the raw wire
bytes.  For the wire body `"\x7b\"a\": 1\x7d"` (one space), the parsed
value re-serialises to `"\x7b\"a\":1\x7d"`, so the HMAC input differs
from the received bytes, contradicting the spec and the source's own
comment ("Always store and HMAC the raw JSON string (rather than
re-stringifying after parsing)"). -/
theorem didit_hmac_reserializes_body :
    jsonParse "\x7b\"a\": 1\x7d" = some (Json.obj [("a", Json.num 1)]) ∧
    diditHmacMessage (Json.obj [("a", Json.num 1)]) = "\x7b\"a\":1\x7d" ∧
    diditHmacMessage (Json.obj [("a", Json.num 1)]) ≠ "\x7b\"a\": 1\x7d" :=
  ⟨rfl, by decide, by decide⟩

/-- The gate never accepts outright: `ok200` is only produced after the
ledger stage. -/
theorem diditGate_ne_ok (env : Env) (O : Oracle) (n : Nat)
    (sig ts : Option String) (body : Json) :
    diditGate env O n sig ts body ≠ some .ok200 := by
  simp only [diditGate]
  repeat' split
  all_goals simp

/-- A request passing the gate at one instant passes it at any other
instant at which the freshness check passes: only the staleness test
reads the clock. -/
theorem diditGate_time_shift (env : Env) (O : Oracle) (n₁ n₂ : Nat)
    (sig ts : Option String) (body : Json)
    (h : diditGate env O n₁ sig ts body = none)
    (hst : isStale n₂ (ts.getD "") = false) :
    diditGate env O n₂ sig ts body = none := by
  by_cases h1 : headerTruthy sig = false ∨ headerTruthy ts = false
  · simp [diditGate, h1] at h
  · cases hsec : env.diditSecret with
    | none => simp [diditGate, h1, hsec] at h
    | some secret =>
      by_cases hlen : (sig.getD "").length
          ≠ (O.hmacHex secret (diditHmacMessage body)).length
      · simp [diditGate, h1, hsec, hlen] at h
      · by_cases hne : sig.getD "" ≠ O.hmacHex secret (diditHmacMessage body)
        · simp [diditGate, h1, hsec, hlen, hne] at h
        · by_cases hst1 : isStale n₁ (ts.getD "") = true
          · simp [diditGate, h1, hsec, hlen, hne, hst1] at h
          · by_cases hp : truthyField body "webhook_type" = false ∨
                truthyField body "session_id" = false ∨
                truthyField body "status" = false
            · simp [diditGate, h1, hsec, hlen, hne, hst1, hp] at h
            · simp [diditGate, h1, hsec, hlen, hne, hst, hp]

/-- A 200 response means the gate passed and the derived eventId is in
the resulting ledger. -/
theorem diditWebhook_ok_inv (env : Env) (O : Oracle) (n : Nat)
    (st st₁ : WebhookState) (sig ts : Option String) (body : Json)
    (h : diditWebhook env O n st sig ts body = (.ok200, st₁)) :
    diditGate env O n sig ts body = none ∧
    eventIdOf body n ∈ st₁.ledger := by
  cases hg : diditGate env O n sig ts body with
  | some r =>
    exfalso
    simp only [diditWebhook, hg] at h
    injection h with hr hst
    subst hr
    exact diditGate_ne_ok env O n sig ts body hg
  | none =>
    refine ⟨rfl, ?_⟩
    simp only [diditWebhook, hg] at h
    by_cases hc : eventIdOf body n ∈ st.ledger
    · rw [if_pos hc] at h
      injection h with _ hst
      subst hst
      exact hc
    · rw [if_neg hc] at h
      cases hp : diditProcess st body with
      | none =>
        rw [hp] at h
        exact absurd (congrArg Prod.fst h) (by simp)
      | some st2 =>
        rw [hp] at h
        injection h with _ hst
        subst hst
        simp

/-- C6 counterexample: a supplied signature whose length differs from
the expected hex digest makes `crypto.timingSafeEqual` throw, which the
handler's catch converts into a 500 — not the claimed 401. -/
theorem short_signature_returns_500 :
    diditWebhook envW oracleW 0 {} (some "abc") (some "1") (Json.obj [])
      = (.err500, {}) ∧
    WResp.err500 ≠ WResp.unauth401 := by
  refine ⟨by decide, by decide⟩

/-- C6 (amended): a supplied signature of the *same length* as the
expected digest that differs from it is rejected with 401 and no state
change, for every oracle and environment with a configured secret; a
signature of a different length instead trips the
`timingSafeEqual` length error and is answered with 500. -/
theorem same_length_bad_signature_401
    (env : Env) (O : Oracle) (nowMs : Nat) (st : WebhookState)
    (sig ts : Option String) (body : Json) (secret : String)
    (hsec : env.diditSecret = some secret)
    (hsig : headerTruthy sig = true) (hts : headerTruthy ts = true)
    (hlen : (sig.getD "").length
      = (O.hmacHex secret (diditHmacMessage body)).length)
    (hne : sig.getD "" ≠ O.hmacHex secret (diditHmacMessage body)) :
    diditWebhook env O nowMs st sig ts body = (.unauth401, st) := by
  have hgate : diditGate env O nowMs sig ts body = some .unauth401 := by
    simp [diditGate, hsig, hts, hsec, hlen, hne]
  simp [diditWebhook, hgate]

/-- C6 witness: the amended statement at a concrete same-length
mismatch (supplied `"11"` vs expected `"00"`). -/
theorem same_length_bad_signature_401_witness :
    envW.diditSecret = some "sec" ∧
    headerTruthy (some "11") = true ∧ headerTruthy (some "1") = true ∧
    ((some "11" : Option String).getD "").length
      = (oracleW.hmacHex "sec" (diditHmacMessage (Json.obj []))).length ∧
    ((some "11" : Option String).getD "")
      ≠ oracleW.hmacHex "sec" (diditHmacMessage (Json.obj [])) ∧
    diditWebhook envW oracleW 7 {} (some "11") (some "1") (Json.obj [])
      = (.unauth401, {}) :=
  ⟨rfl, by decide, by decide, by decide, by decide,
    same_length_bad_signature_401 envW oracleW 7 {} (some "11")
      (some "1") (Json.obj []) "sec" rfl (by decide) (by decide)
      (by decide) (by decide)⟩

/-- C7 counterexample: for a payload with no `timestamp` field the
derived eventId falls back to `Date.now()`, so an identical resubmission
at a later instant gets a different eventId, misses the ledger, and
re-applies the business update — the observable state after two
submissions differs from the state after one. -/
theorem webhook_without_timestamp_reprocessed :
    (diditWebhook envW oracleW2 0 {} (some "h") (some "0") bodyNoTs).1
      = .ok200 ∧
    (diditWebhook envW oracleW2 100000
        (diditWebhook envW oracleW2 0 {} (some "h") (some "0") bodyNoTs).2
        (some "h") (some "0") bodyNoTs).1 = .ok200 ∧
    (diditWebhook envW oracleW2 100000
        (diditWebhook envW oracleW2 0 {} (some "h") (some "0") bodyNoTs).2
        (some "h") (some "0") bodyNoTs).2
      ≠ (diditWebhook envW oracleW2 0 {} (some "h") (some "0") bodyNoTs).2 ∧
    (diditWebhook envW oracleW2 100000
        (diditWebhook envW oracleW2 0 {} (some "h") (some "0") bodyNoTs).2
        (some "h") (some "0") bodyNoTs).2.updates.length = 2 := by
  refine ⟨by decide, by decide, by decide, by decide⟩

/-- C7 (amended): for payloads carrying a truthy vendor `timestamp`
field, the derived eventId is independent of the server clock; a first
submission answered 200 leaves that eventId in the ledger, and an
identical resubmission at any instant passing the freshness check
short-circuits on the ledger and returns 200 with the state unchanged
(no update re-applied). -/
theorem webhook_idempotent_with_timestamp
    (env : Env) (O : Oracle) (n₁ n₂ : Nat) (st st₁ : WebhookState)
    (sig ts : Option String) (body : Json) (tsv : Json)
    (hts : body.getField "timestamp" = some tsv)
    (htr : tsv.truthy = true)
    (h₁ : diditWebhook env O n₁ st sig ts body = (.ok200, st₁))
    (hst : isStale n₂ (ts.getD "") = false) :
    eventIdOf body n₂ ∈ st₁.ledger ∧
    diditWebhook env O n₂ st₁ sig ts body = (.ok200, st₁) := by
  have hid : eventIdOf body n₂ = eventIdOf body n₁ := by
    simp [eventIdOf, hts, htr]
  obtain ⟨hg₁, hmem⟩ := diditWebhook_ok_inv env O n₁ st st₁ sig ts body h₁
  have hg₂ := diditGate_time_shift env O n₁ n₂ sig ts body hg₁ hst
  have hmem₂ : eventIdOf body n₂ ∈ st₁.ledger := by
    rw [hid]; exact hmem
  refine ⟨hmem₂, ?_⟩
  simp only [diditWebhook, hg₂]
  rw [if_pos hmem₂]

/-- C7 witness: the amended idempotence applied to the concrete payload
with vendor timestamp 42, first submitted at clock 0 and resubmitted at
clock 50000. -/
theorem webhook_idempotent_with_timestamp_witness :
    bodyTs.getField "timestamp" = some (Json.num 42) ∧
    (Json.num 42).truthy = true ∧
    diditWebhook envW oracleW2 0 {} (some "h") (some "0") bodyTs
      = (.ok200,
         { ledger := ["didit_s1_status.updated_42"],
           updates := [("u1", "s1", "verified")] }) ∧
    isStale 50000 ((some "0" : Option String).getD "") = false ∧
    (eventIdOf bodyTs 50000 ∈
      ({ ledger := ["didit_s1_status.updated_42"],
         updates := [("u1", "s1", "verified")] } : WebhookState).ledger ∧
    diditWebhook envW oracleW2 50000
        { ledger := ["didit_s1_status.updated_42"],
          updates := [("u1", "s1", "verified")] }
        (some "h") (some "0") bodyTs
      = (.ok200,
         { ledger := ["didit_s1_status.updated_42"],
           updates := [("u1", "s1", "verified")] })) :=
  ⟨rfl, by decide, by decide, by decide,
    webhook_idempotent_with_timestamp envW oracleW2 0 50000 {}
      { ledger := ["didit_s1_status.updated_42"],
        updates := [("u1", "s1", "verified")] }
      (some "h") (some "0") bodyTs (Json.num 42) rfl (by decide)
      (by decide) (by decide)⟩

end Populist
